import Mathlib

/-!
Verification development for the VidExplainAgent backend
(`backend/src/ingestion_pipeline.py`, `backend/src/main.py`).

The Python source is shallowly embedded: pure string processing becomes
functions on `List Char`, the in-memory job store becomes an association
list, external services (the Gemini client, the Chroma vector store, the
synthesis and TTS stages) become explicit oracle parameters, and Python
exceptions become `Except` / explicit outcome constructors.
-/

namespace VidExplain

/-- ASCII model of Python's regex `\s` class (and of the whitespace set
used by `str.strip`): space, tab, newline, carriage return, form feed,
vertical tab.  All inputs considered here are ASCII. -/
def isPyWs (c : Char) : Bool :=
  c = ' ' || c = '\t' || c = '\n' || c = '\r' || c = Char.ofNat 11 || c = Char.ofNat 12

/-- The `\x7b` character (opening curly brace). -/
def lcurly : Char := Char.ofNat 123

/-- The `\x7d` character (closing curly brace). -/
def rcurly : Char := Char.ofNat 125

/-- Python `str.strip()`: drop whitespace from both ends. -/
def pyStrip (cs : List Char) : List Char :=
  ((cs.dropWhile isPyWs).reverse.dropWhile isPyWs).reverse

/-- Python truthiness test `not s or not s.strip()`: true when the string
is empty or consists only of whitespace. -/
def pyBlank (s : String) : Bool :=
  s.toList.all isPyWs

/-- ASCII lower-casing of one character, as `str.lower()` does on ASCII. -/
def asciiLower (c : Char) : Char :=
  if 'A' ≤ c ∧ c ≤ 'Z' then Char.ofNat (c.toNat + 32) else c

/-- ASCII model of Python `str.lower()`. -/
def lowerStr (cs : List Char) : List Char :=
  cs.map asciiLower

/-- Contiguous-substring test, modelling Python's `needle in haystack`. -/
def containsSub (haystack needle : List Char) : Bool :=
  match haystack with
  | [] => needle = []
  | _ :: rest => needle.isPrefixOf haystack || containsSub rest needle

/-! ## A model of `json.loads`

Python's `json.loads` is external library code; it is modelled here by a
recursive-descent parser over `List Char` following the JSON grammar:
a document is a single value with optional surrounding whitespace, and a
parse error (`None` here, an exception in Python) occurs on any deviation.
Numbers are kept as their literal characters, object members as an
association list in textual order; `\uXXXX` escapes decode to the single
code point (no surrogate pairing).  The parser is fuelled; `jsonLoads`
supplies fuel exceeding the nesting depth of its input, so fuel exhaustion
never occurs for an input that the grammar accepts. -/

/-- JSON values as produced by the `json.loads` model. -/
inductive Json where
  | jnull : Json
  | jbool : Bool → Json
  | jnum : List Char → Json
  | jstr : List Char → Json
  | jarr : List Json → Json
  | jobj : List (List Char × Json) → Json
deriving Inhabited

/-- Whether a JSON value is an array (Python `isinstance(x, list)` on the
result of `json.loads`). -/
def Json.isArr : Json → Bool
  | .jarr _ => true
  | _ => false

/-- JSON insignificant whitespace (space, tab, newline, carriage return). -/
def isJsonWs (c : Char) : Bool :=
  c = ' ' || c = '\t' || c = '\n' || c = '\r'

/-- Skip JSON whitespace. -/
def skipWs (cs : List Char) : List Char :=
  cs.dropWhile isJsonWs

/-- Decode one string-literal escape character (the character after the
backslash).  Returns `none` for an invalid escape. -/
def unescapeChar (c : Char) : Option Char :=
  if c = '"' then some '"'
  else if c = '\\' then some '\\'
  else if c = '/' then some '/'
  else if c = 'b' then some (Char.ofNat 8)
  else if c = 'f' then some (Char.ofNat 12)
  else if c = 'n' then some '\n'
  else if c = 'r' then some '\r'
  else if c = 't' then some '\t'
  else none

/-- Value of a hexadecimal digit. -/
def hexVal (c : Char) : Option Nat :=
  if '0' ≤ c ∧ c ≤ '9' then some (c.toNat - '0'.toNat)
  else if 'a' ≤ c ∧ c ≤ 'f' then some (c.toNat - 'a'.toNat + 10)
  else if 'A' ≤ c ∧ c ≤ 'F' then some (c.toNat - 'A'.toNat + 10)
  else none

/-- Parse the body of a string literal (the opening quote already
consumed); returns the decoded characters and the rest after the closing
quote. -/
def parseStringBody : Nat → List Char → Option (List Char × List Char)
  | 0, _ => none
  | _ + 1, [] => none
  | fuel + 1, c :: rest =>
    if c = '"' then some ([], rest)
    else if c = '\\' then
      match rest with
      | [] => none
      | e :: rest2 =>
        if e = 'u' then
          match rest2 with
          | h1 :: h2 :: h3 :: h4 :: rest3 =>
            match hexVal h1, hexVal h2, hexVal h3, hexVal h4 with
            | some a, some b, some c', some d =>
              match parseStringBody fuel rest3 with
              | some (s, r) => some (Char.ofNat (((a * 16 + b) * 16 + c') * 16 + d) :: s, r)
              | none => none
            | _, _, _, _ => none
          | _ => none
        else
          match unescapeChar e with
          | some u =>
            match parseStringBody fuel rest2 with
            | some (s, r) => some (u :: s, r)
            | none => none
          | none => none
    else if c.toNat < 32 then none
    else
      match parseStringBody fuel rest with
      | some (s, r) => some (c :: s, r)
      | none => none

/-- A decimal digit. -/
def isDigit (c : Char) : Bool :=
  '0' ≤ c ∧ c ≤ '9'

/-- Parse a JSON number literal, returning its characters and the rest.
Grammar: `-? int frac? exp?` with `int = 0 | [1-9][0-9]*`. -/
def parseNumber (cs : List Char) : Option (List Char × List Char) :=
  let (neg, cs1) :=
    match cs with
    | '-' :: r => (['-'], r)
    | _ => (([] : List Char), cs)
  match cs1 with
  | [] => none
  | d :: _ =>
    if ¬ isDigit d then none
    else
      let intPart :=
        if d = '0' then ['0'] else cs1.takeWhile isDigit
      let cs2 := cs1.drop intPart.length
      let (fracPart, cs3) :=
        match cs2 with
        | '.' :: r =>
          let ds := r.takeWhile isDigit
          if ds = [] then (([] : List Char), cs2) else ('.' :: ds, r.drop ds.length)
        | _ => (([] : List Char), cs2)
      -- a '.' not followed by a digit is a parse error in Python's json
      if cs2 ≠ [] ∧ cs2.head? = some '.' ∧ fracPart = [] then none
      else
        let (expPart, cs4) :=
          match cs3 with
          | e :: r =>
            if e = 'e' ∨ e = 'E' then
              let (sgn, r2) :=
                match r with
                | s :: r' => if s = '+' ∨ s = '-' then ([s], r') else (([] : List Char), r)
                | [] => (([] : List Char), r)
              let ds := r2.takeWhile isDigit
              if ds = [] then (([] : List Char), cs3)
              else (e :: (sgn ++ ds), r2.drop ds.length)
            else (([] : List Char), cs3)
          | [] => (([] : List Char), cs3)
        -- an 'e' not followed by digits is a parse error
        if (cs3.head? = some 'e' ∨ cs3.head? = some 'E') ∧ expPart = [] then none
        else some (neg ++ intPart ++ fracPart ++ expPart, cs4)

mutual

/-- Parse one JSON value (leading whitespace already skipped by callers). -/
def parseValue : Nat → List Char → Option (Json × List Char)
  | 0, _ => none
  | fuel + 1, cs =>
    match cs with
    | [] => none
    | c :: rest =>
      if c = '"' then
        match parseStringBody (rest.length + 1) rest with
        | some (s, r) => some (.jstr s, r)
        | none => none
      else if c = lcurly then
        let r1 := skipWs rest
        match r1 with
        | c2 :: r2 =>
          if c2 = rcurly then some (.jobj [], r2)
          else
            match parseMembers fuel r1 with
            | some (ms, r) => some (.jobj ms, r)
            | none => none
        | [] => none
      else if c = '[' then
        let r1 := skipWs rest
        match r1 with
        | c2 :: r2 =>
          if c2 = ']' then some (.jarr [], r2)
          else
            match parseElements fuel r1 with
            | some (xs, r) => some (.jarr xs, r)
            | none => none
        | [] => none
      else if c = 't' then
        if rest.take 3 = ['r', 'u', 'e'] then some (.jbool true, rest.drop 3) else none
      else if c = 'f' then
        if rest.take 4 = ['a', 'l', 's', 'e'] then some (.jbool false, rest.drop 4) else none
      else if c = 'n' then
        if rest.take 3 = ['u', 'l', 'l'] then some (.jnull, rest.drop 3) else none
      else
        match parseNumber cs with
        | some (lit, r) => some (.jnum lit, r)
        | none => none

/-- Parse one or more comma-separated `"key": value` members, then the
closing brace. -/
def parseMembers : Nat → List Char → Option (List (List Char × Json) × List Char)
  | 0, _ => none
  | fuel + 1, cs =>
    match cs with
    | c :: rest =>
      if c = '"' then
        match parseStringBody (rest.length + 1) rest with
        | some (k, r1) =>
          match skipWs r1 with
          | ':' :: r2 =>
            match parseValue fuel (skipWs r2) with
            | some (v, r3) =>
              match skipWs r3 with
              | c4 :: r4 =>
                if c4 = ',' then
                  match parseMembers fuel (skipWs r4) with
                  | some (ms, r5) => some ((k, v) :: ms, r5)
                  | none => none
                else if c4 = rcurly then some ([(k, v)], r4)
                else none
              | [] => none
            | none => none
          | _ => none
        | none => none
      else none
    | [] => none

/-- Parse one or more comma-separated array elements, then the closing
bracket. -/
def parseElements : Nat → List Char → Option (List Json × List Char)
  | 0, _ => none
  | fuel + 1, cs =>
    match parseValue fuel cs with
    | some (v, r1) =>
      match skipWs r1 with
      | c2 :: r2 =>
        if c2 = ',' then
          match parseElements fuel (skipWs r2) with
          | some (xs, r3) => some (v :: xs, r3)
          | none => none
        else if c2 = ']' then some ([v], r2)
        else none
      | [] => none
    | none => none

end

/-- Model of `json.loads`: parse a complete JSON document; any unconsumed
non-whitespace suffix is an error ("Extra data" in Python). -/
def jsonLoads (cs : List Char) : Option Json :=
  match parseValue (cs.length + 1) (skipWs cs) with
  | some (v, r) => if skipWs r = [] then some v else none
  | none => none

/-! ## `fix_json_string` (ingestion_pipeline.py lines 207-231)

Each `re.sub` call becomes a left-to-right scan replacing leftmost
non-overlapping matches and resuming after each match, exactly as
`re.sub` does.  Each scan carries fuel; it is invoked with fuel equal to
the input length and consumes at least one list element per fuel unit, so
fuel never runs out. -/

/-- `re.sub(r',(\s*[}\]])', r'\1', s)`: remove a comma standing (up to
whitespace) before a closing brace or bracket.  A greedy `\s*` followed by
the bracket class matches exactly when the first character after the
maximal whitespace run is `\x7d` or `]`. -/
def subTrailingComma : Nat → List Char → List Char
  | 0, cs => cs
  | _ + 1, [] => []
  | fuel + 1, c :: rest =>
    if c = ',' then
      let ws := rest.takeWhile isPyWs
      match rest.drop ws.length with
      | b :: rest2 =>
        if b = rcurly ∨ b = ']' then ws ++ b :: subTrailingComma fuel rest2
        else ',' :: subTrailingComma fuel rest
      | [] => ',' :: subTrailingComma fuel rest
    else c :: subTrailingComma fuel rest

/-- `re.sub(r'\."\."', '."', s)`: collapse a duplicated period-quote. -/
def subDupQuotePeriod : Nat → List Char → List Char
  | 0, cs => cs
  | _ + 1, [] => []
  | fuel + 1, c :: rest =>
    if c = '.' ∧ rest.take 3 = ['"', '.', '"'] then
      '.' :: '"' :: subDupQuotePeriod fuel (rest.drop 3)
    else c :: subDupQuotePeriod fuel rest

/-- `re.sub(r'}\s+{', '},{', s)`: insert the missing comma between two
objects separated by at least one whitespace character. -/
def subBraceBrace : Nat → List Char → List Char
  | 0, cs => cs
  | _ + 1, [] => []
  | fuel + 1, c :: rest =>
    if c = rcurly then
      let ws := rest.takeWhile isPyWs
      if ws ≠ [] ∧ (rest.drop ws.length).head? = some lcurly then
        rcurly :: ',' :: lcurly :: subBraceBrace fuel (rest.drop (ws.length + 1))
      else rcurly :: subBraceBrace fuel rest
    else c :: subBraceBrace fuel rest

/-- `re.sub(r'"\s+{', '",{', s)`: insert the missing comma between a
string value and a following object. -/
def subQuoteBrace : Nat → List Char → List Char
  | 0, cs => cs
  | _ + 1, [] => []
  | fuel + 1, c :: rest =>
    if c = '"' then
      let ws := rest.takeWhile isPyWs
      if ws ≠ [] ∧ (rest.drop ws.length).head? = some lcurly then
        '"' :: ',' :: lcurly :: subQuoteBrace fuel (rest.drop (ws.length + 1))
      else '"' :: subQuoteBrace fuel rest
    else c :: subQuoteBrace fuel rest

/-- `re.sub(r'}\s+"', '},"', s)`: insert the missing comma between a
closing brace and a following string. -/
def subBraceQuote : Nat → List Char → List Char
  | 0, cs => cs
  | _ + 1, [] => []
  | fuel + 1, c :: rest =>
    if c = rcurly then
      let ws := rest.takeWhile isPyWs
      if ws ≠ [] ∧ (rest.drop ws.length).head? = some '"' then
        rcurly :: ',' :: '"' :: subBraceQuote fuel (rest.drop (ws.length + 1))
      else rcurly :: subBraceQuote fuel rest
    else c :: subBraceQuote fuel rest

/-- `re.sub(r'\."(\s*[,\}\]])', r'"\1', s)`: drop a stray period before a
value-ending quote. -/
def subPeriodQuoteClose : Nat → List Char → List Char
  | 0, cs => cs
  | _ + 1, [] => []
  | fuel + 1, c :: rest =>
    if c = '.' ∧ rest.head? = some '"' then
      let rest1 := rest.tail
      let ws := rest1.takeWhile isPyWs
      match rest1.drop ws.length with
      | b :: rest2 =>
        if b = ',' ∨ b = rcurly ∨ b = ']' then
          '"' :: (ws ++ b :: subPeriodQuoteClose fuel rest2)
        else '.' :: subPeriodQuoteClose fuel rest
      | [] => '.' :: subPeriodQuoteClose fuel rest
    else c :: subPeriodQuoteClose fuel rest

/-- The final pass of `fix_json_string`: remove control characters other
than newline, carriage return and tab. -/
def stripCtrlChars (cs : List Char) : List Char :=
  cs.filter fun c => 32 ≤ c.toNat || c = '\n' || c = '\r' || c = '\t'

/-- `fix_json_string` (ingestion_pipeline.py lines 207-231): the six
regex repairs applied in source order, then the control-character strip. -/
def fix_json_string (cs : List Char) : List Char :=
  let s1 := subTrailingComma cs.length cs
  let s2 := subDupQuotePeriod s1.length s1
  let s3 := subBraceBrace s2.length s2
  let s4 := subQuoteBrace s3.length s3
  let s5 := subBraceQuote s4.length s4
  let s6 := subPeriodQuoteClose s5.length s5
  stripCtrlChars s6

/-! ## Response cleanup and array location (ingestion_pipeline.py 188-204) -/

/-- Index of the last newline in a character list, if any. -/
def lastNewlinePos (l : List Char) : Option Nat :=
  (l.reverse.findIdx? (fun c => c = '\n')).map (fun i => l.length - 1 - i)

/-- `re.sub(r'^```(?:json)?\s*\n', '', s)`: when the text opens a markdown
fence, remove the fence line.  The anchored match consumes the backticks,
an optional `json` tag, and the following whitespace greedily up to (and
including) the last newline of that whitespace run; with no newline in the
run the pattern does not match and the text is unchanged. -/
def fenceHead (cs : List Char) : List Char :=
  if cs.take 3 = "```".toList then
    let p := cs.drop 3
    let q := if p.take 4 = "json".toList then p.drop 4 else p
    let ws := q.takeWhile isPyWs
    match lastNewlinePos ws with
    | some k => q.drop (k + 1)
    | none => cs
  else cs

/-- `re.sub(r'\n```\s*$', '', s)`: remove a trailing fence.  The pattern
matches at the first newline that is followed by three backticks and then
only whitespace up to the end of the text; the match extends to the end,
so everything from that newline on is removed. -/
def fenceTail : Nat → List Char → List Char
  | 0, cs => cs
  | _ + 1, [] => []
  | fuel + 1, c :: rest =>
    if c = '\n' ∧ rest.take 3 = "```".toList ∧ (rest.drop 3).all isPyWs then []
    else c :: fenceTail fuel rest

/-- Response cleanup (ingestion_pipeline.py lines 189-193): strip the
text, and if it starts with a markdown fence remove the opening and
closing fence lines. -/
def cleanResponse (raw : List Char) : List Char :=
  let cleaned := pyStrip raw
  if cleaned.take 3 = "```".toList then
    let c1 := fenceHead cleaned
    fenceTail c1.length c1
  else cleaned

/-- `re.search(r'\[.*\]', cleaned_text, re.DOTALL)` (line 196): with
DOTALL and a greedy `.*`, the leftmost match runs from the first `[` to
the last `]`, and a match exists exactly when some `]` occurs after the
first `[`. -/
def findArray (cs : List Char) : Option (List Char) :=
  let fromLB := cs.dropWhile (fun c => c ≠ '[')
  let m := (fromLB.reverse.dropWhile (fun c => c ≠ ']')).reverse
  if 2 ≤ m.length then some m else none

/-! ## The parse stage of `extract_multimodal_data` (lines 186-271) -/

/-- Outcome of the parse stage.  Each error constructor corresponds to one
of the three `return {"error": ...}` sites; the function is total, so in
the embedding no exception can escape this stage. -/
inductive ExtractResult where
  | ok : List Json → ExtractResult
  | errNoArray : ExtractResult
  | errBadJson : ExtractResult
  | errNotList : ExtractResult

/-- Lines 204-271 as a function of the located `json_string`: apply
`fix_json_string`, parse, and classify.  `errBadJson` is the
`json.JSONDecodeError` branch (line 245), `errNotList` the
`isinstance(extracted_data, list)` check (line 265). -/
def parseStage (jsonString : List Char) : ExtractResult :=
  let fixedStr := fix_json_string jsonString
  match jsonLoads fixedStr with
  | none => .errBadJson
  | some v =>
    match v with
    | .jarr xs => .ok xs
    | _ => .errNotList

/-- The whole parse stage of `extract_multimodal_data` as a function of
the raw response text: cleanup, array location (`errNoArray` is the
line-198 branch), then `parseStage`. -/
def extractParse (raw : List Char) : ExtractResult :=
  match findArray (cleanResponse raw) with
  | none => .errNoArray
  | some jsonString => parseStage jsonString

/-! ## The API-call stage of `extract_multimodal_data` (lines 155-175 and
the enclosing handler, lines 273-286) -/

/-- Result of one `client.models.generate_content` call: response text or
a raised exception carrying its message. -/
inductive ApiOutcome where
  | ok : String → ApiOutcome
  | exn : String → ApiOutcome

/-- Line 171: `"rate" in error_msg or "quota" in error_msg or "limit" in
error_msg` on the lower-cased exception text. -/
def isRateLimitMsg (m : String) : Bool :=
  containsSub (lowerStr m.toList) ("rate".toList) ||
  containsSub (lowerStr m.toList) ("quota".toList) ||
  containsSub (lowerStr m.toList) ("limit".toList)

/-- The user-facing message returned on a rate-limit signal (line 173). -/
def rateLimitUserMsg : String :=
  "API rate limit exceeded. Please wait a moment and try again. (Gemini free tier: 3 RPM, 10K TPM)"

/-- The API-call stage of `extract_multimodal_data`.  `attempts n` is the
outcome the upstream service would give to the n-th call.  The source
makes a single `generate_content` call (line 163); an exception whose
lowercased text mentions rate/quota/limit returns the rate-limit error
dictionary at once (line 173), any other exception is re-raised (line 175)
and converted to the generic error dictionary by the enclosing handler
(lines 273-286). -/
def extractApiCall (attempts : Nat → ApiOutcome) : Except String String :=
  match attempts 0 with
  | .ok t => .ok t
  | .exn m =>
    if isRateLimitMsg m then .error rateLimitUserMsg
    else .error ("Error during Gemini extraction API call: " ++ m)

/-! ## `index_video_data` (ingestion_pipeline.py lines 289-360)

Extracted segments arrive as parsed JSON dictionaries; they are embedded
as a structure whose `Option` fields reflect the `dict.get` defaults used
by the source (`none` models both an absent key and, for the nested
dictionaries, the non-dict case of the `isinstance` guards, since both
make every inner lookup fall back to its default). -/

/-- The `speaker_info` sub-dictionary of a segment. -/
structure SpeakerInfo where
  name : Option String
  role : Option String
  visual_description : Option String
deriving DecidableEq

/-- The `educational_context` sub-dictionary of a segment. -/
structure EduContext where
  difficulty_level : Option String
  prerequisites : Option (List String)
  related_concepts : Option (List String)
deriving DecidableEq

/-- One extracted segment/event, with the fields `index_video_data`
reads. -/
structure Event where
  timestamp_start_str : Option String
  timestamp_end_str : Option String
  cognitive_summary : Option String
  speaker_info : Option SpeakerInfo
  transcript_snippet : Option String
  visual_description : Option String
  technical_details : Option String
  key_concepts : Option (List String)
  educational_context : Option EduContext
deriving DecidableEq

/-- The scalar metadata record stored with each indexed document
(lines 331-346). -/
structure DocMetadata where
  job_id : String
  video_url : String
  event_index : Nat
  timestamp_start_str : String
  timestamp_end_str : String
  cognitive_summary : String
  speaker_name : String
  speaker_role : String
  raw_transcript : String
  raw_visuals : String
  technical_details : String
  key_concepts : String
  difficulty_level : String
  prerequisites : String
deriving DecidableEq

/-- One entry of the vector collection: deterministic id, flattened
document text, scalar metadata. -/
structure IndexedDoc where
  id : String
  document : String
  metadata : DocMetadata
deriving DecidableEq

/-- The loop body of `index_video_data` (lines 300-348) for event number
`i`: field extraction with the source's defaults, the flattened
`document_text`, the metadata record, and the id `{job_id}_event_{i}`.
In the typed embedding the per-event `try/except` skip (line 349) cannot
fire, since building from a well-typed `Event` never raises. -/
def buildIndexEntry (job_id video_url : String) (i : Nat) (event : Event) : IndexedDoc :=
  let speaker_name :=
    match event.speaker_info with
    | some si => si.name.getD ("Unknown")
    | none => "Unknown"
  let speaker_role :=
    match event.speaker_info with
    | some si => si.role.getD ("N/A")
    | none => "N/A"
  let difficulty :=
    match event.educational_context with
    | some ec => ec.difficulty_level.getD ("N/A")
    | none => "N/A"
  let prerequisites :=
    match event.educational_context with
    | some ec => ec.prerequisites.getD []
    | none => []
  let prerequisites_str :=
    if prerequisites = [] then "None" else String.intercalate (", ") prerequisites
  let key_concepts := event.key_concepts.getD []
  let key_concepts_str :=
    if key_concepts = [] then "None" else String.intercalate (", ") key_concepts
  let ts_start := event.timestamp_start_str.getD ("N/A")
  let document_text :=
    "Timestamp: " ++ ts_start ++
    "\nSpeaker: " ++ speaker_name ++ " (" ++ speaker_role ++ ")" ++
    "\nSummary: " ++ event.cognitive_summary.getD ("") ++
    "\nTranscript: " ++ event.transcript_snippet.getD ("") ++
    "\nVisual Description: " ++ event.visual_description.getD ("") ++
    "\nTechnical Details: " ++ event.technical_details.getD ("") ++
    "\nKey Concepts: " ++ key_concepts_str ++
    "\nDifficulty: " ++ difficulty ++
    "\nPrerequisites: " ++ prerequisites_str
  { id := job_id ++ "_event_" ++ toString i
    document := document_text
    metadata :=
      { job_id := job_id
        video_url := video_url
        event_index := i
        timestamp_start_str := ts_start
        timestamp_end_str := event.timestamp_end_str.getD ("N/A")
        cognitive_summary := event.cognitive_summary.getD ("")
        speaker_name := speaker_name
        speaker_role := speaker_role
        raw_transcript := event.transcript_snippet.getD ("")
        raw_visuals := event.visual_description.getD ("")
        technical_details := event.technical_details.getD ("")
        key_concepts := key_concepts_str
        difficulty_level := difficulty
        prerequisites := prerequisites_str } }

/-- The documents/metadatas/ids triple built by the loop of
`index_video_data`, one entry per enumerated event. -/
def buildIndexEntries (job_id video_url : String) (data : List Event) : List IndexedDoc :=
  data.enum.map fun p => buildIndexEntry job_id video_url p.1 p.2

/-- Outcome of the external `collection.add` call (line 357). -/
inductive AddOutcome where
  | ok : AddOutcome
  | err : String → AddOutcome
deriving DecidableEq

/-- `index_video_data` (lines 289-360) acting on a collection state
`coll`.  Empty input returns with a warning (line 294); an empty document
batch returns with an error log (line 352); otherwise the batch is added,
and an exception from `collection.add` is caught and logged (lines
359-360) — it does NOT propagate, so the collection is simply left
unchanged and the function returns normally. -/
def index_video_data (job_id video_url : String) (data : List Event)
    (add : AddOutcome) (coll : List IndexedDoc) : List IndexedDoc :=
  if data = [] then coll
  else
    let docs := buildIndexEntries job_id video_url data
    if docs = [] then coll
    else
      match add with
      | .ok => coll ++ docs
      | .err _ => coll

/-- A collection built by a sequence of `index_video_data` runs (one per
processed job), all with successful inserts. -/
def collOf (calls : List (String × String × List Event)) : List IndexedDoc :=
  calls.foldl (fun c t => index_video_data t.1 t.2.1 t.2.2 .ok c) []

/-! ## `query_chromadb` (ingestion_pipeline.py lines 363-371) -/

/-- The result dictionary of `query_chromadb`.  Chroma's `collection.query`
returns one inner list per query text (the source passes exactly one);
the internal-failure branch (line 371) returns flat empty lists. -/
structure ChromaResult where
  documents : List (List String)
  metadatas : List (List DocMetadata)
  ids : List (List String)
deriving DecidableEq

/-- `query_chromadb`: the external `collection.query` call is the oracle
`cq query_text job_id n_results`, which either returns the matched
documents (success) or raises (`Except.error`).  On success the result is
the nested single-query shape; on an internal error the function logs and
returns `{"documents": [], "metadatas": [], "ids": []}` — the exception is
never propagated to the caller. -/
def query_chromadb (cq : String → String → Nat → Except String (List IndexedDoc))
    (job_id user_query : String) (n_results : Nat := 5) : ChromaResult :=
  match cq user_query job_id n_results with
  | .ok found =>
    { documents := [found.map (fun d => d.document)]
      metadatas := [found.map (fun d => d.metadata)]
      ids := [found.map (fun d => d.id)] }
  | .error _ => { documents := [], metadatas := [], ids := [] }

/-! ## The background worker `process_and_index_video` (main.py 125-179) -/

/-- The job record stored in `video_jobs`. -/
structure JobRecord where
  status : String
  video_url : String
  message : Option String
deriving DecidableEq

/-- Final observable state of one background-worker run: the job's stored
status and message, whether the diagnostic `extraction_error.txt` file was
written, and the resulting vector-collection state. -/
structure WorkerResult where
  status : String
  message : Option String
  errorFileWritten : Bool
  coll : List IndexedDoc
deriving DecidableEq

/-- `process_and_index_video` (main.py lines 125-179).  `clientOk` is
whether the global genai client is available (line 137); `extraction` is
the outcome of `extract_multimodal_data` (`Except.error` covers both the
error-dictionary returns and the unexpected-type case, all of which are
raised at lines 154-156); `add` is the outcome of the `collection.add`
call inside `index_video_data`.  Every exception is caught by the handler
at line 167, which stores status "failed" with the message and writes the
diagnostic file.  On the success path the status becomes "completed"
after `index_video_data` returns — including when the insert failed,
because `index_video_data` swallows that exception. -/
def process_and_index_video (clientOk : Bool)
    (extraction : Except String (List Event)) (add : AddOutcome)
    (job_id video_url : String) (coll : List IndexedDoc) : WorkerResult :=
  if clientOk = false then
    { status := "failed"
      message := some ("Service initialization error - genai client not available")
      errorFileWritten := true
      coll := coll }
  else
    match extraction with
    | .error e =>
      { status := "failed", message := some e, errorFileWritten := true, coll := coll }
    | .ok extracted_data =>
      if extracted_data = [] then
        { status := "failed"
          message := some ("No data extracted from video.")
          errorFileWritten := true
          coll := coll }
      else
        { status := "completed"
          message := some ("Successfully processed " ++ toString extracted_data.length ++ " events.")
          errorFileWritten := false
          coll := index_video_data job_id video_url extracted_data add coll }

/-! ## The upload endpoint `upload_video` (main.py 200-230) -/

/-- Outcome of the upload endpoint: an `HTTPException`, or a created job
(generated id, the record stored in `video_jobs`, and the status string
sent back in the `UploadResponse`). -/
inductive UploadOutcome where
  | httpError : Nat → String → UploadOutcome
  | created : String → JobRecord → String → UploadOutcome
deriving DecidableEq

/-- A character of the YouTube video-id class `[a-zA-Z0-9_-]`. -/
def isIdChar (c : Char) : Bool :=
  ('a' ≤ c ∧ c ≤ 'z') ∨ ('A' ≤ c ∧ c ≤ 'Z') ∨ ('0' ≤ c ∧ c ≤ '9') ∨ c = '_' ∨ c = '-'

/-- The twelve concrete prefixes generated by
`(https?://)?(www\.)?(youtube\.com/watch\?v=|youtu\.be/|youtube\.com/embed/)`. -/
def youtubePatternHeads : List String :=
  (["", "http://", "https://"].flatMap fun p1 =>
    (["", "www."].flatMap fun p2 =>
      (["youtube.com/watch?v=", "youtu.be/", "youtube.com/embed/"].map fun p3 =>
        p1 ++ p2 ++ p3)))

/-- `YOUTUBE_URL_PATTERN.match(url)` (main.py lines 95-97): the anchored
regex matches exactly when the string starts with one of the alternative
prefixes followed by at least 11 video-id characters (the match is not
end-anchored). -/
def youtubeMatch (url : String) : Bool :=
  youtubePatternHeads.any fun p =>
    let cs := url.toList
    let ps := p.toList
    ps.isPrefixOf cs ∧ ((cs.drop ps.length).take 11).length = 11 ∧
      ((cs.drop ps.length).take 11).all isIdChar

/-- `upload_video` (main.py lines 200-230): blank URL → 400; URL failing
the YouTube pattern → 400; otherwise a job keyed by the generated id is
stored with status "pending" (line 226) and the endpoint answers with the
job id and the literal status string "processing" (line 230). -/
def upload_video (generated_job_id : String) (video_url : String) : UploadOutcome :=
  if pyBlank video_url then
    .httpError 400 ("Please provide a valid YouTube video URL.")
  else if ¬ youtubeMatch video_url then
    .httpError 400 ("Invalid YouTube URL format. Please provide a valid YouTube video URL (e.g., https://www.youtube.com/watch?v=...)")
  else
    .created generated_job_id
      { status := "pending", video_url := video_url, message := none }
      ("processing")

/-! ## The query path `_process_query` (main.py 274-399) -/

/-- A query request (`QueryRequest`, main.py 112-116).  The timestamp is a
Python float, modelled as an exact rational; the TTS provider selection is
absorbed into the audio oracle of `process_query`. -/
structure QueryRequestM where
  job_id : String
  query : String
  timestamp : Option ℚ
deriving DecidableEq

/-- The `QueryResponse` model (main.py 118-121). -/
structure QueryResponseM where
  explanation_text : String
  audio_url : String
  referenced_timestamps : List String
deriving DecidableEq

/-- Outcome of one query: an `HTTPException`, a successful response, or an
uncaught Python exception escaping `_process_query` (carrying the
exception's name). -/
inductive QueryOutcome where
  | http : Nat → String → QueryOutcome
  | ok : QueryResponseM → QueryOutcome
  | pyExn : String → QueryOutcome
deriving DecidableEq

/-- The HTTP status the framework sends for an outcome: an
`HTTPException`'s own code, 200 on success, and 500 for an exception that
escapes the handler (FastAPI's default for unhandled errors; `query_video`
only intercepts `asyncio.TimeoutError`). -/
def frameworkStatus : QueryOutcome → Nat
  | .http s _ => s
  | .ok _ => 200
  | .pyExn _ => 500

/-- Python's `f"{n:02}"`: decimal rendering left-padded with `0` to width
two (a sign counts toward the width). -/
def pad2 (n : ℤ) : String :=
  if 0 ≤ n ∧ n < 10 then "0" ++ toString n else toString n

/-- Lines 309-314: the resolved query text.  `if request.timestamp:` is a
Python truthiness test, so both `None` and a zero timestamp skip the
prefixing; otherwise `minutes = int(t // 60)` and `seconds = int(t % 60)`
(floor division and nonnegative float modulus) prefix the query. -/
def resolveQueryText (query : String) (timestamp : Option ℚ) : String :=
  match timestamp with
  | none => query
  | some t =>
    if t = 0 then query
    else
      let minutes : ℤ := ⌊t / 60⌋
      let seconds : ℤ := ⌊t - 60 * (minutes : ℚ)⌋
      "At or around timestamp " ++ pad2 minutes ++ ":" ++ pad2 seconds ++ ", " ++ query

/-- `video_jobs.get(job_id)` over the association-list job store. -/
def lookupJob (jobs : List (String × JobRecord)) (jid : String) : Option JobRecord :=
  (jobs.find? (fun p => p.1 = jid)).map (fun p => p.2)

/-- `_process_query` (main.py lines 274-399).  `cq` is the external
`collection.query` call (as in `query_chromadb`); `synth` abstracts
`generate_text_explanation` (returning explanation text and referenced
timestamps, or raising) and `audio` abstracts the provider check plus
`generate_audio_explanation` (returning the audio URL, or raising); an
unavailable genai client is also absorbed into `synth`.  The expression
`query_results.get("metadatas", [[]])[0]` indexes the metadatas list,
raising `IndexError` when it is empty; that exception is not caught
anywhere in `_process_query`, so it escapes as `pyExn "IndexError"`. -/
def process_query (jobs : List (String × JobRecord))
    (cq : String → String → Nat → Except String (List IndexedDoc))
    (synth : List DocMetadata → String → Except String (String × List String))
    (audio : String → Except String String)
    (req : QueryRequestM) : QueryOutcome :=
  if pyBlank req.job_id then
    .http 400 ("No video has been uploaded yet. Please upload a YouTube video first before asking questions.")
  else if pyBlank req.query then
    .http 400 ("Please provide a question to ask about the video.")
  else
    match lookupJob jobs req.job_id with
    | none =>
      .http 404 ("Video not found. Please upload a YouTube video first, or the video processing session may have expired.")
    | some job =>
      if job.status ≠ "completed" then
        .http 400 ("Video is still being processed. Current status: " ++ job.status ++ ". Please wait until processing is complete.")
      else
        let query_text := resolveQueryText req.query req.timestamp
        let query_results := query_chromadb cq req.job_id query_text 5
        match query_results.metadatas with
        | [] => .pyExn ("IndexError")
        | context_chunks :: _ =>
          if context_chunks = [] then
            .http 404 ("No relevant context found for this query in the video.")
          else
            match synth context_chunks query_text with
            | .error e => .http 500 ("Error during synthesis: " ++ e)
            | .ok (text, tss) =>
              match audio text with
              | .error e => .http 500 ("Error during synthesis: " ++ e)
              | .ok url =>
                .ok { explanation_text := text, audio_url := url, referenced_timestamps := tss }

/-! ## Concrete fixtures used by the witnesses -/

/-- A segment with every optional field absent. -/
def evBlank : Event := ⟨none, none, none, none, none, none, none, none, none⟩

/-- A small segment for job A. -/
def evA : Event :=
  ⟨some ("00:00:01"), some ("00:00:05"), some ("intro"), none, some ("hello"),
    none, none, none, none⟩

/-- A small segment for job B. -/
def evB : Event :=
  ⟨some ("00:01:00"), none, none, none, some ("world"), none, none, none, none⟩

/-- Two indexing runs under different job ids. -/
def isolationCalls : List (String × String × List Event) :=
  [("jobA", "urlA", [evA]), ("jobB", "urlB", [evB])]

/-- A vector store honouring the `where={"job_id": job_id}` contract over
the collection built from `isolationCalls`: it answers with exactly the
documents whose `job_id` metadata equals the queried job id. -/
def isolationStore : String → String → Nat → Except String (List IndexedDoc) :=
  fun _ j _ => .ok ((collOf isolationCalls).filter (fun d => d.metadata.job_id == j))

/-- The two adjacent objects with no separator at all: the missing-comma
repair regex `}\s+{` requires at least one whitespace character, so this
input is left unrepaired. -/
def twoObjNoSep : List Char :=
  "[\x7b\"a\": 1\x7d\x7b\"b\": 2\x7d]".toList

/-- The same two objects separated by one whitespace character `ws`
instead of the missing comma. -/
def twoObjSep (ws : Char) : List Char :=
  "[\x7b\"a\": 1\x7d".toList ++ [ws] ++ "\x7b\"b\": 2\x7d]".toList

/-- The parse of the well-formed version of the two-object array. -/
def twoObjParsed : Json :=
  .jarr [.jobj [(['a'], .jnum ['1'])], .jobj [(['b'], .jnum ['2'])]]

/-- An upstream behaviour whose first call raises a transient overload
error and whose every later call would succeed. -/
def overloadThenOk : Nat → ApiOutcome :=
  fun n => if n = 0 then .exn ("503 The service is overloaded") else .ok ("[]")

/-! # Claims -/

/-- C2 (counterexample).  The claim fails when the two adjacent objects
have no whitespace between them: the repair pattern `}\s+{` demands at
least one whitespace character, so `fix_json_string` leaves the text
unrepaired and the parse fails.  The second conjunct certifies that the
input was malformed only by the missing comma: restoring the comma parses
to exactly the two objects. -/
theorem missing_comma_no_whitespace_repair_fails :
    jsonLoads (fix_json_string twoObjNoSep) = none ∧
    jsonLoads ("[\x7b\"a\": 1\x7d,\x7b\"b\": 2\x7d]".toList) = some twoObjParsed := by
  exact ⟨rfl, rfl⟩

/-- C2 (amended).  For a response whose extracted JSON array is malformed
only by a missing comma between two adjacent objects, repair followed by
parse succeeds and recovers exactly the two objects, provided at least one
whitespace character separates the objects. -/
theorem missing_comma_with_whitespace_repair_succeeds :
    ∀ ws ∈ [' ', '\n', '\t', '\r'],
      jsonLoads (fix_json_string (twoObjSep ws)) = some twoObjParsed := by
  intro ws h
  fin_cases h <;> rfl

/-- C2 witness: the newline-separated instance. -/
theorem missing_comma_with_whitespace_repair_succeeds_witness :
    jsonLoads (fix_json_string (twoObjSep '\n')) = some twoObjParsed :=
  missing_comma_with_whitespace_repair_succeeds '\n' (by simp)

/-- C3.  The parse stage of `extract_multimodal_data` is a total function
into `ExtractResult` (so no exception is raised), and its three error
returns are the three pairwise-distinct cases of the source: no bracketed
array located in the cleaned response, located array text failing the
JSON parse, and a successful parse whose value is not a list. -/
theorem extract_parse_error_taxonomy :
    (∀ raw, findArray (cleanResponse raw) = none → extractParse raw = .errNoArray) ∧
    (∀ raw js, findArray (cleanResponse raw) = some js → extractParse raw = parseStage js) ∧
    (∀ js, jsonLoads (fix_json_string js) = none → parseStage js = .errBadJson) ∧
    (∀ js v, jsonLoads (fix_json_string js) = some v → v.isArr = false →
      parseStage js = .errNotList) ∧
    (ExtractResult.errNoArray ≠ ExtractResult.errBadJson ∧
      ExtractResult.errNoArray ≠ ExtractResult.errNotList ∧
      ExtractResult.errBadJson ≠ ExtractResult.errNotList) := by
  refine ⟨?_, ?_, ?_, ?_, ?_, ?_, ?_⟩
  · intro raw h
    simp [extractParse, h]
  · intro raw js h
    simp [extractParse, h]
  · intro js h
    simp [parseStage, h]
  · intro js v h hv
    cases v <;> simp_all [parseStage, Json.isArr]
  · intro h
    exact ExtractResult.noConfusion h
  · intro h
    exact ExtractResult.noConfusion h
  · intro h
    exact ExtractResult.noConfusion h

/-- C3 witness: a response with no bracketed array, a response whose
located array is unparsable, and a located text parsing to a non-list. -/
theorem extract_parse_error_taxonomy_witness :
    extractParse ("the model returned prose instead".toList) = .errNoArray ∧
    extractParse ("Here: [abc] done".toList) = .errBadJson ∧
    parseStage ("7".toList) = .errNotList := by
  have h := extract_parse_error_taxonomy
  refine ⟨h.1 _ (by rfl), ?_, h.2.2.2.1 ("7".toList) (.jnum ['7']) (by rfl) (by rfl)⟩
  exact (h.2.1 ("Here: [abc] done".toList) ("[abc]".toList) (by rfl)).trans
    (h.2.2.1 ("[abc]".toList) (by rfl))

/-- C4 (counterexample).  The extraction adapter does not retry: with an
upstream behaviour whose first call fails with a transient overload error
and whose second call would succeed, `extract_multimodal_data` returns the
generic error dictionary instead of retrying to success. -/
theorem extraction_transient_failure_not_retried :
    extractApiCall overloadThenOk =
      .error ("Error during Gemini extraction API call: 503 The service is overloaded") ∧
    overloadThenOk 1 = .ok ("[]") := by
  exact ⟨rfl, rfl⟩

/-- C4 (amended).  During video extraction the adapter makes exactly one
API attempt (the outcome depends only on attempt 0, so there is no retry
or backoff): a success is returned as-is, an exception whose lowercased
message mentions rate/quota/limit yields the user-facing rate-limit
message at once, and any other exception yields the generic extraction
error. -/
theorem extraction_single_attempt_classification :
    (∀ attempts t, attempts 0 = .ok t → extractApiCall attempts = .ok t) ∧
    (∀ attempts m, attempts 0 = .exn m → isRateLimitMsg m = true →
      extractApiCall attempts = .error rateLimitUserMsg) ∧
    (∀ attempts m, attempts 0 = .exn m → isRateLimitMsg m = false →
      extractApiCall attempts = .error ("Error during Gemini extraction API call: " ++ m)) ∧
    (∀ a b, a 0 = b 0 → extractApiCall a = extractApiCall b) := by
  refine ⟨?_, ?_, ?_, ?_⟩
  · intro attempts t h
    simp [extractApiCall, h]
  · intro attempts m h hm
    simp [extractApiCall, h, hm]
  · intro attempts m h hm
    simp [extractApiCall, h, hm]
  · intro a b h
    unfold extractApiCall
    rw [h]

/-- C4 witness: a quota-signal exception fails immediately with the
rate-limit message; a first-call success is returned. -/
theorem extraction_single_attempt_classification_witness :
    extractApiCall (fun _ => .exn ("429 RESOURCE_EXHAUSTED: quota exceeded")) =
      .error rateLimitUserMsg ∧
    extractApiCall (fun _ => .ok ("[]")) = .ok ("[]") := by
  have h := extraction_single_attempt_classification
  exact ⟨h.2.1 _ ("429 RESOURCE_EXHAUSTED: quota exceeded") rfl (by rfl),
    h.1 _ ("[]") rfl⟩

/-- C5 (counterexample).  A vector-store insertion failure during indexing
does NOT leave the job failed: `index_video_data` catches and logs the
`collection.add` exception, so the worker proceeds to store status
"completed" (and the collection is left unchanged — the segments were
silently lost). -/
theorem insertion_failure_job_still_completed :
    (process_and_index_video true (.ok [evBlank]) (.err ("chroma insert failed"))
        "job-1" "url-1" []).status = "completed" ∧
    (process_and_index_video true (.ok [evBlank]) (.err ("chroma insert failed"))
        "job-1" "url-1" []).coll = [] ∧
    ("completed" : String) ≠ "failed" := by
  exact ⟨rfl, rfl, by decide⟩

/-- C5 (amended).  Extraction errors (including an unavailable client) and
empty extraction abort the background job: status becomes "failed", the
message is recorded in the job record, and the diagnostic file is written.
A vector-store insertion failure during indexing, however, is swallowed
inside `index_video_data`, so for any nonempty extracted data and any
insertion outcome the job ends with status "completed". -/
theorem worker_error_propagation :
    (∀ e add jid url coll, process_and_index_video true (.error e) add jid url coll =
      ⟨"failed", some e, true, coll⟩) ∧
    (∀ add jid url coll, process_and_index_video true (.ok []) add jid url coll =
      ⟨"failed", some ("No data extracted from video."), true, coll⟩) ∧
    (∀ (data : List Event) add jid url coll, data ≠ [] →
      (process_and_index_video true (.ok data) add jid url coll).status = "completed") := by
  refine ⟨?_, ?_, ?_⟩
  · intro e add jid url coll
    rfl
  · intro add jid url coll
    rfl
  · intro data add jid url coll h
    simp [process_and_index_video, h]

/-- C5 witness: an extraction error aborts the job as "failed"; nonempty
data completes even alongside an insertion failure. -/
theorem worker_error_propagation_witness :
    process_and_index_video true (.error ("No valid JSON array (starting with '[') found in Gemini response."))
        .ok "job-1" "url-1" [] =
      ⟨"failed", some ("No valid JSON array (starting with '[') found in Gemini response."), true, []⟩ ∧
    (process_and_index_video true (.ok [evBlank]) (.err ("down")) "job-1" "url-1" []).status =
      "completed" := by
  have h := worker_error_propagation
  exact ⟨h.1 _ .ok "job-1" "url-1" [], h.2.2 [evBlank] (.err ("down")) "job-1" "url-1" []
    (by simp)⟩

/-- C6.  A well-formed query (non-blank job id and query text) against an
existing job whose stored status is not "completed" is rejected with the
not-ready 400 error, and the outcome does not depend on the retrieval,
synthesis or audio oracles — so the vector-store retrieval is never
invoked for that request. -/
theorem query_not_ready_rejected_before_retrieval
    (jobs : List (String × JobRecord)) (req : QueryRequestM) (job : JobRecord)
    (cq cq' : String → String → Nat → Except String (List IndexedDoc))
    (synth synth' : List DocMetadata → String → Except String (String × List String))
    (audio audio' : String → Except String String)
    (hjid : pyBlank req.job_id = false) (hq : pyBlank req.query = false)
    (hjob : lookupJob jobs req.job_id = some job) (hst : job.status ≠ "completed") :
    process_query jobs cq synth audio req =
      .http 400 ("Video is still being processed. Current status: " ++ job.status ++
        ". Please wait until processing is complete.") ∧
    process_query jobs cq synth audio req = process_query jobs cq' synth' audio' req := by
  constructor <;> simp [process_query, hjid, hq, hjob, hst]

/-- C6 witness: a job in "processing_video" with two entirely different
oracle triples. -/
theorem query_not_ready_rejected_before_retrieval_witness :
    process_query [("j1", ⟨"processing_video", "u", none⟩)]
        (fun _ _ _ => .error ("down")) (fun _ _ => .error ("down")) (fun _ => .error ("down"))
        ⟨"j1", "what is shown", none⟩ =
      .http 400 ("Video is still being processed. Current status: " ++ "processing_video" ++
        ". Please wait until processing is complete.") ∧
    process_query [("j1", ⟨"processing_video", "u", none⟩)]
        (fun _ _ _ => .error ("down")) (fun _ _ => .error ("down")) (fun _ => .error ("down"))
        ⟨"j1", "what is shown", none⟩ =
      process_query [("j1", ⟨"processing_video", "u", none⟩)]
        (fun _ _ _ => .ok []) (fun _ _ => .ok ("t", [])) (fun _ => .ok ("a"))
        ⟨"j1", "what is shown", none⟩ := by
  have h := query_not_ready_rejected_before_retrieval
    [("j1", ⟨"processing_video", "u", none⟩)] ⟨"j1", "what is shown", none⟩
    ⟨"processing_video", "u", none⟩
    (fun _ _ _ => .error ("down")) (fun _ _ _ => .ok [])
    (fun _ _ => .error ("down")) (fun _ _ => .ok ("t", []))
    (fun _ => .error ("down")) (fun _ => .ok ("a"))
    (by rfl) (by rfl) (by rfl) (by decide)
  exact ⟨h.1, h.2⟩

/-- C7.  When the underlying `collection.query` call raises,
`query_chromadb` does not propagate the exception: it returns the result
with empty `documents`, `metadatas` and `ids` lists (being a total
function of the store outcome, it raises nothing in any case). -/
theorem query_chromadb_swallows_store_error
    (cq : String → String → Nat → Except String (List IndexedDoc))
    (job_id user_query : String) (n : Nat) (msg : String)
    (h : cq user_query job_id n = .error msg) :
    query_chromadb cq job_id user_query n =
      { documents := [], metadatas := [], ids := [] } := by
  simp [query_chromadb, h]

/-- C7 witness: a store that raises on every query. -/
theorem query_chromadb_swallows_store_error_witness :
    query_chromadb (fun _ _ _ => .error ("chroma raised")) "jobA" "what" 5 =
      { documents := [], metadatas := [], ids := [] } :=
  query_chromadb_swallows_store_error (fun _ _ _ => .error ("chroma raised"))
    "jobA" "what" 5 "chroma raised" rfl

/-- C8 (counterexample).  For a valid URL the upload endpoint stores the
job with initial status "pending" but answers with the literal status
string "processing": the response does not carry the job's stored initial
status. -/
theorem upload_response_status_differs_from_stored :
    upload_video "job-1" "https://www.youtube.com/watch?v=rHLEWRxRGiM" =
      .created "job-1"
        ⟨"pending", "https://www.youtube.com/watch?v=rHLEWRxRGiM", none⟩
        ("processing") ∧
    ("processing" : String) ≠ "pending" := by
  exact ⟨rfl, by decide⟩

/-- C8 (amended).  The upload endpoint validates the submitted URL against
the YouTube pattern, rejecting blank and non-matching URLs with a 400
client error; for every valid URL it stores a job whose initial status is
"pending" and returns the generated job id together with the literal
status string "processing" (which differs from the stored initial
status). -/
theorem upload_validation_and_job_creation :
    (∀ jid url, pyBlank url = false → youtubeMatch url = true →
      upload_video jid url = .created jid ⟨"pending", url, none⟩ ("processing")) ∧
    (∀ jid url, pyBlank url = true →
      upload_video jid url = .httpError 400 ("Please provide a valid YouTube video URL.")) ∧
    (∀ jid url, pyBlank url = false → youtubeMatch url = false →
      upload_video jid url = .httpError 400
        ("Invalid YouTube URL format. Please provide a valid YouTube video URL (e.g., https://www.youtube.com/watch?v=...)")) := by
  refine ⟨?_, ?_, ?_⟩
  · intro jid url h1 h2
    simp [upload_video, h1, h2]
  · intro jid url h1
    simp [upload_video, h1]
  · intro jid url h1 h2
    simp [upload_video, h1, h2]

/-- C8 witness: one accepted URL and one rejected URL. -/
theorem upload_validation_and_job_creation_witness :
    upload_video "job-2" "https://youtu.be/abc12345678" =
      .created "job-2" ⟨"pending", "https://youtu.be/abc12345678", none⟩ ("processing") ∧
    upload_video "job-3" "https://vimeo.com/12345678901" =
      .httpError 400
        ("Invalid YouTube URL format. Please provide a valid YouTube video URL (e.g., https://www.youtube.com/watch?v=...)") := by
  have h := upload_validation_and_job_creation
  exact ⟨h.1 "job-2" "https://youtu.be/abc12345678" (by rfl) (by rfl),
    h.2.2 "job-3" "https://vimeo.com/12345678901" (by rfl) (by rfl)⟩

/-- C9.  When the store's similarity query raises, `query_chromadb`
returns the failure result whose `metadatas` is a flat empty list (not a
list containing one empty list), so `query_results.get("metadatas",
[[]])[0]` in `_process_query` indexes an empty list: the request ends in
an uncaught `IndexError`, which the framework surfaces as a 500 internal
error rather than the no-context 404 response. -/
theorem store_failure_surfaces_as_internal_error
    (jobs : List (String × JobRecord)) (req : QueryRequestM) (job : JobRecord)
    (cq : String → String → Nat → Except String (List IndexedDoc))
    (synth : List DocMetadata → String → Except String (String × List String))
    (audio : String → Except String String) (msg : String)
    (hjid : pyBlank req.job_id = false) (hq : pyBlank req.query = false)
    (hjob : lookupJob jobs req.job_id = some job) (hst : job.status = "completed")
    (hcq : cq (resolveQueryText req.query req.timestamp) req.job_id 5 = .error msg) :
    process_query jobs cq synth audio req = .pyExn ("IndexError") ∧
    frameworkStatus (process_query jobs cq synth audio req) = 500 ∧
    process_query jobs cq synth audio req ≠
      .http 404 ("No relevant context found for this query in the video.") := by
  have hmain : process_query jobs cq synth audio req = .pyExn ("IndexError") := by
    simp [process_query, hjid, hq, hjob, hst, query_chromadb, hcq]
  refine ⟨hmain, ?_, ?_⟩
  · rw [hmain]
    rfl
  · rw [hmain]
    exact fun hcontra => QueryOutcome.noConfusion hcontra

/-- C9 witness: a completed job with a raising store. -/
theorem store_failure_surfaces_as_internal_error_witness :
    process_query [("j1", ⟨"completed", "u", none⟩)]
        (fun _ _ _ => .error ("chroma down")) (fun _ _ => .ok ("t", []))
        (fun _ => .ok ("a")) ⟨"j1", "what is shown", none⟩ =
      .pyExn ("IndexError") ∧
    frameworkStatus (process_query [("j1", ⟨"completed", "u", none⟩)]
        (fun _ _ _ => .error ("chroma down")) (fun _ _ => .ok ("t", []))
        (fun _ => .ok ("a")) ⟨"j1", "what is shown", none⟩) = 500 := by
  have h := store_failure_surfaces_as_internal_error
    [("j1", ⟨"completed", "u", none⟩)] ⟨"j1", "what is shown", none⟩
    ⟨"completed", "u", none⟩
    (fun _ _ _ => .error ("chroma down")) (fun _ _ => .ok ("t", []))
    (fun _ => .ok ("a")) "chroma down"
    (by rfl) (by rfl) (by rfl) (by rfl) (by rfl)
  exact ⟨h.1, h.2.1⟩

/-- C10.  The truthiness test `if request.timestamp:` makes a zero
timestamp behave exactly like an absent one (no prefixing), while every
strictly positive timestamp prefixes the query with the minutes-and-
seconds rendering `f"{int(t//60):02}:{int(t%60):02}"`. -/
theorem timestamp_resolution
    : (∀ q : String, resolveQueryText q none = q) ∧
      (∀ q : String, resolveQueryText q (some 0) = q) ∧
      (∀ (q : String) (t : ℚ), 0 < t →
        resolveQueryText q (some t) =
          "At or around timestamp " ++ pad2 ⌊t / 60⌋ ++ ":" ++
            pad2 ⌊t - 60 * ((⌊t / 60⌋ : ℤ) : ℚ)⌋ ++ ", " ++ q) := by
  refine ⟨fun q => rfl, fun q => by simp [resolveQueryText], ?_⟩
  intro q t ht
  simp [resolveQueryText, ht.ne']

/-- C10 witness: 90 seconds resolves to the "01:30" prefix. -/
theorem timestamp_resolution_witness :
    (0 : ℚ) < 90 ∧
    resolveQueryText "what is shown" (some 90) =
      "At or around timestamp 01:30, what is shown" := by
  refine ⟨by norm_num, ?_⟩
  rw [timestamp_resolution.2.2 "what is shown" 90 (by norm_num)]
  norm_num [pad2]
  rfl

/-- C1.  Job isolation.  Part 1: every document built by the indexing loop
carries as `job_id` metadata the job id it was indexed under.  Parts 2-3:
`query_chromadb` for job `j` passes `j` as the `where` filter to the
store; under the store's filter contract (`hwhere`: documents answered for
the filtered query belong to the collection and satisfy
`metadata.job_id = j`, which is Chroma's documented `where` semantics),
every metadata record the retrieval returns has `job_id = j`, and any
returned document that was indexed by one of the runs was indexed under
`j` itself — a query scoped to one job never returns a document indexed
under a different job. -/
theorem indexing_and_retrieval_job_isolation
    (calls : List (String × String × List Event))
    (cq : String → String → Nat → Except String (List IndexedDoc))
    (j q : String) (n : Nat)
    (hwhere : ∀ r, cq q j n = .ok r → ∀ d ∈ r, d ∈ collOf calls ∧ d.metadata.job_id = j) :
    (∀ (jid url : String) (evs : List Event),
      ∀ d ∈ buildIndexEntries jid url evs, d.metadata.job_id = jid) ∧
    (∀ m ∈ (query_chromadb cq j q n).metadatas.flatten, m.job_id = j) ∧
    (∀ r, cq q j n = .ok r → ∀ d ∈ r, ∀ t ∈ calls,
      d ∈ buildIndexEntries t.1 t.2.1 t.2.2 → t.1 = j) := by
  have hbuild : ∀ (jid url : String) (evs : List Event),
      ∀ d ∈ buildIndexEntries jid url evs, d.metadata.job_id = jid := by
    intro jid url evs d hd
    simp only [buildIndexEntries, List.mem_map] at hd
    obtain ⟨p, hp, rfl⟩ := hd
    rfl
  refine ⟨hbuild, ?_, ?_⟩
  · intro m hm
    unfold query_chromadb at hm
    cases hk : cq q j n with
    | error e =>
      rw [hk] at hm
      simp at hm
    | ok r =>
      rw [hk] at hm
      simp only [List.flatten, List.mem_append, List.mem_map] at hm
      rcases hm with hm | hm
      · obtain ⟨d, hd, rfl⟩ := hm
        exact (hwhere r hk d hd).2
      · simp at hm
  · intro r hk d hd t ht hdt
    have h1 : d.metadata.job_id = j := (hwhere r hk d hd).2
    have h2 : d.metadata.job_id = t.1 := hbuild t.1 t.2.1 t.2.2 d hdt
    rw [← h1, h2]

/-- C1 witness: two jobs indexed into one collection, a store honouring
the filter contract, and a query scoped to job A. -/
theorem indexing_and_retrieval_job_isolation_witness :
    ((query_chromadb isolationStore "jobA" "hello" 5).metadatas.flatten.all
      (fun m => m.job_id = "jobA")) = true := by
  have h := indexing_and_retrieval_job_isolation isolationCalls isolationStore
    "jobA" "hello" 5 ?_
  · rw [List.all_eq_true]
    intro m hm
    exact decide_eq_true (h.2.1 m hm)
  · intro r hr d hd
    simp only [isolationStore, Except.ok.injEq] at hr
    subst hr
    rw [List.mem_filter] at hd
    exact ⟨hd.1, by simpa using hd.2⟩

end VidExplain
